import Mathlib

/-!
Shallow embedding of `src/context/AuthContext.tsx` (SessionCoordinator in the
spec's terms): the provider's local state, the module-level initialization
guard, the initial session probe (`checkSession`), `login`, `logout`, the
debounced `onAuthStateChange` handler, and the `useAuth` hook.

Backend calls (`supabase.auth.getSession`, `signInWithPassword`, `signOut`)
wrapped in `withAuthRetry` are external; their results are modelled as data
(`FetchOutcome`, `SignOutOutcome`): either the retried call resolves with a
`{ session, error }` payload, or it throws an exception carrying a message.
`Date.now()` is passed in as `now : Nat`, `new Date().toISOString()` as
`nowIso : String`.
-/

namespace AuthContext

/-- `User` from `../types` as populated by this file: `id`, `username`,
`password` (always stored empty), `isAdmin`, `createdAt`. -/
structure User where
  id : String
  username : String
  password : String
  isAdmin : Bool
  createdAt : String
deriving DecidableEq, Repr

/-- The `session.user` payload from the backend. `email` and `created_at`
may be absent (TS `undefined`). -/
structure SessionUser where
  id : String
  email : Option String
  created_at : Option String
deriving DecidableEq, Repr

/-- A backend session: the code reads `session.user` (checked for truthiness)
and `session.access_token`. -/
structure Session where
  user : Option SessionUser
  access_token : String
deriving DecidableEq, Repr

/-- Outcome of an awaited retried backend call returning `{ session, error }`:
either the promise resolves with a possibly-null session and possibly-null
error (`error` modelled by its `.message` string), or it throws. -/
inductive FetchOutcome where
  | ok (session : Option Session) (error : Option String)
  | exn (msg : String)
deriving DecidableEq, Repr

/-- Outcome of the awaited retried `signOut()` call: resolves with a
possibly-null error, or throws. -/
inductive SignOutOutcome where
  | resolved (error : Option String)
  | thrown (msg : String)
deriving DecidableEq, Repr

/-- The React state of one `AuthProvider` instance: `currentUser`, `authToken`,
`isLoading`, `authError`, `lastTokenRefresh`. -/
structure ProviderState where
  currentUser : Option User
  authToken : Option String
  isLoading : Bool
  authError : Option String
  lastTokenRefresh : Nat
deriving DecidableEq, Repr

/-- Initial provider state: `useState(null)`, `useState(null)`,
`useState(true)`, `useState(null)`, `useState(0)`. -/
def initialProviderState : ProviderState :=
  { currentUser := none
    authToken := none
    isLoading := true
    authError := none
    lastTokenRefresh := 0 }

/-- The hardcoded privileged account compared against `session.user.email`. -/
def privilegedEmail : String := "droweder@gmail.com"

/-- Build the `User` record exactly as the three success paths do:
`username: session.user.email || ''`,
`isAdmin: session.user.email === 'droweder@gmail.com'`,
`createdAt: session.user.created_at || new Date().toISOString()`. -/
def mkUser (su : SessionUser) (nowIso : String) : User :=
  { id := su.id
    username := su.email.getD ""
    password := ""
    isAdmin := su.email == some privilegedEmail
    createdAt := su.created_at.getD nowIso }

/-- The body of the probe IIFE after `setAuthError(null)` and the awaited
`withAuthRetry(() => supabase.auth.getSession())`:
`if (session && session.user && !error)` populates the user, token and
refresh stamp; otherwise, if `error` is non-null, sets
`authError = 'Erro de sessão: ' + error.message`; an exception sets
`authError = 'Erro de conexão: ' + message`. -/
def checkSessionProcess (s : ProviderState) (r : FetchOutcome) (now : Nat)
    (nowIso : String) : ProviderState :=
  match r with
  | .exn msg => { s with authError := some ("Erro de conexão: " ++ msg) }
  | .ok sess err =>
    match sess, err with
    | some sess', none =>
      match sess'.user with
      | some su =>
        { s with currentUser := some (mkUser su nowIso)
                 authToken := some sess'.access_token
                 lastTokenRefresh := now }
      | none => s
    | _, some e => { s with authError := some ("Erro de sessão: " ++ e) }
    | none, none => s

/-- The initial probe's effect on provider state given the backend outcome:
`setAuthError(null)` runs before the awaited fetch, then the result is
processed by `checkSessionProcess`. -/
def runInitialProbe (s : ProviderState) (r : FetchOutcome) (now : Nat)
    (nowIso : String) : ProviderState :=
  checkSessionProcess { s with authError := none } r now nowIso

/-- `login(email, password)`: clears `authError`, awaits the retried
`signInWithPassword`. A backend-reported error sets
`authError = 'Erro no login: ' + message` and returns false; a session with a
user populates state and returns true; a null session (no error) returns
false; an exception sets `authError = 'Erro de conexão: ' + message` and
returns false. Returns the new state and the boolean result. -/
def loginExec (s : ProviderState) (r : FetchOutcome) (now : Nat)
    (nowIso : String) : ProviderState × Bool :=
  let s0 := { s with authError := none }
  match r with
  | .exn msg => ({ s0 with authError := some ("Erro de conexão: " ++ msg) }, false)
  | .ok sess err =>
    match err with
    | some e => ({ s0 with authError := some ("Erro no login: " ++ e) }, false)
    | none =>
      match sess with
      | some sess' =>
        match sess'.user with
        | some su =>
          ({ s0 with currentUser := some (mkUser su nowIso)
                     authToken := some sess'.access_token
                     lastTokenRefresh := now }, true)
        | none => (s0, false)
      | none => (s0, false)

/-- `logout()`: awaits the retried `signOut()` inside a `try`; only when it
resolves (its `{ error }` payload is never inspected) do the four setters
run, clearing `authError`, `currentUser`, `authToken` and
`lastTokenRefresh`. If it throws, the `catch` only logs: no setter runs. -/
def logoutExec (s : ProviderState) (r : SignOutOutcome) : ProviderState :=
  match r with
  | .resolved _ =>
    { s with authError := none
             currentUser := none
             authToken := none
             lastTokenRefresh := 0 }
  | .thrown _ => s

/-- `true` when the sign-in outcome is a failure the code reports: a
backend-returned error or a thrown exception. -/
def loginFailureOutcome : FetchOutcome → Bool
  | .exn _ => true
  | .ok _ (some _) => true
  | .ok _ none => false

/-- The context value exposed to consumers (callable fields omitted). -/
structure AuthSnapshot where
  currentUser : Option User
  isAuthenticated : Bool
  authToken : Option String
  authError : Option String
deriving DecidableEq, Repr

/-- `useAuth()`: reads the context; when no provider is above the caller the
context value is `undefined` and the hook throws; otherwise it returns the
context value. -/
def useAuthHook (ctx : Option AuthSnapshot) : Except String AuthSnapshot :=
  match ctx with
  | none => .error "useAuth must be used within an AuthProvider"
  | some c => .ok c

/-!
## Interleaving model of `checkSession` under the module-level guard

The code runs on one event loop: each `checkSession` caller executes
atomically from entry either to an early return or to the first suspension
point (the awaited `getSession` fetch inside the IIFE, whose promise the
caller then awaits at `await sessionCheckPromise`). The module-level flags
`hasInitialSessionChecked`, `isCheckingSession` and `sessionCheckPromise`
are shared by all callers; each caller owns its `ProviderState`.

A run is a list of scheduler commands: `enter i` runs caller `i`'s atomic
entry segment; `resolve r now nowIso` delivers the outstanding fetch's
outcome, running the IIFE's continuation (result processing and the
`finally` block) and resuming every caller awaiting the shared promise.
-/

/-- Where a `checkSession` caller stands: not yet entered, suspended awaiting
the shared `sessionCheckPromise`, or returned. -/
inductive Phase where
  | ready
  | awaitingShared
  | finished
deriving DecidableEq, Repr

/-- One mounted `AuthProvider`: its caller phase and its React state. -/
structure Caller where
  phase : Phase
  pstate : ProviderState
deriving DecidableEq, Repr

/-- The module-level flags shared by every caller. -/
structure Guard where
  hasInitialSessionChecked : Bool
  isCheckingSession : Bool
  sessionCheckPromisePending : Bool
deriving DecidableEq, Repr

/-- Whole-system state: guard flags, how many backend session-fetch calls
have been issued, which caller (if any) owns the outstanding fetch, and the
callers. -/
structure SysState where
  guard : Guard
  backendCalls : Nat
  fetchOwner : Option Nat
  callers : List Caller
deriving DecidableEq, Repr

/-- Fresh process: all flags false, no backend call yet, `n` mounted
providers about to run `checkSession`. -/
def initSys (n : Nat) : SysState :=
  { guard := { hasInitialSessionChecked := false
               isCheckingSession := false
               sessionCheckPromisePending := false }
    backendCalls := 0
    fetchOwner := none
    callers := List.replicate n { phase := .ready, pstate := initialProviderState } }

/-- Caller `i` runs `checkSession` from entry to its first suspension or
return, mirroring the source's check order:
`hasInitialSessionChecked` → early return with `setIsLoading(false)`;
`isCheckingSession` → early return with `setIsLoading(false)`;
`sessionCheckPromise` non-null → await it (suspend);
otherwise set the flags, run the IIFE up to its awaited fetch
(`setAuthError(null)`, issue the backend call), and await the promise. -/
def enterStep (s : SysState) (i : Nat) : SysState :=
  match s.callers[i]? with
  | none => s
  | some c =>
    let returned : Caller :=
      { phase := .finished, pstate := { c.pstate with isLoading := false } }
    if c.phase = Phase.ready then
      if s.guard.hasInitialSessionChecked then
        { s with callers := s.callers.set i returned }
      else if s.guard.isCheckingSession then
        { s with callers := s.callers.set i returned }
      else if s.guard.sessionCheckPromisePending then
        { s with callers := s.callers.set i { c with phase := .awaitingShared } }
      else
        { guard := { hasInitialSessionChecked := s.guard.hasInitialSessionChecked
                     isCheckingSession := true
                     sessionCheckPromisePending := true }
          backendCalls := s.backendCalls + 1
          fetchOwner := some i
          callers := s.callers.set i
            ({ phase := .awaitingShared
               pstate := { c.pstate with authError := none } }) }
    else s

/-- The outstanding fetch completes with outcome `r`: the IIFE's continuation
processes it into the owner's state, the `finally` block clears
`isCheckingSession` and `sessionCheckPromise` and sets
`hasInitialSessionChecked`, the promise resolves, and every caller awaiting
it resumes with `setIsLoading(false)`. -/
def resolveStep (s : SysState) (r : FetchOutcome) (now : Nat)
    (nowIso : String) : SysState :=
  match s.fetchOwner with
  | none => s
  | some o =>
    let resumed := s.callers.map fun c =>
      if c.phase = Phase.awaitingShared then
        { phase := Phase.finished, pstate := { c.pstate with isLoading := false } }
      else c
    let callers' :=
      match s.callers[o]? with
      | some c =>
        resumed.set o
          ({ phase := Phase.finished
             pstate :=
               { checkSessionProcess c.pstate r now nowIso with isLoading := false } })
      | none => resumed
    { guard := { hasInitialSessionChecked := true
                 isCheckingSession := false
                 sessionCheckPromisePending := false }
      backendCalls := s.backendCalls
      fetchOwner := none
      callers := callers' }

/-- A scheduler command: run a caller's entry segment, or deliver the
outstanding fetch's outcome. -/
inductive Cmd where
  | enter (i : Nat)
  | resolve (r : FetchOutcome) (now : Nat) (nowIso : String)
deriving DecidableEq, Repr

/-- Execute one command. -/
def execCmd (s : SysState) : Cmd → SysState
  | .enter i => enterStep s i
  | .resolve r now nowIso => resolveStep s r now nowIso

/-- Execute a run from the fresh `n`-caller state. -/
def execRun (n : Nat) (cs : List Cmd) : SysState :=
  cs.foldl execCmd (initSys n)

/-!
## Debounce model for the `onAuthStateChange` handler

Each incoming event runs `clearTimeout` on the pending timer and schedules a
new 500ms timer capturing its own session payload. A timer scheduled at time
`t` fires at `t + 500` unless a later event arrives strictly before that.
Given the chronological event list, `appliedEvents` returns the payloads
whose timers actually fire, in order.
-/

/-- The fixed throttle delay of the handler. -/
def debounceMs : Nat := 500

/-- Payloads applied by the debounced handler for a chronological list of
`(arrival time, session payload)` events: an event's timer survives exactly
when no further event arrives strictly before `arrival + debounceMs`. -/
def appliedEvents : List (Nat × Option Session) → List (Option Session)
  | [] => []
  | (t, p) :: rest =>
    match rest with
    | [] => [p]
    | (t2, _) :: _ =>
      if t + debounceMs ≤ t2 then p :: appliedEvents rest
      else appliedEvents rest

/-- The body of the fired timer callback: `setAuthError(null)`, then a live
session populates user/token/refresh exactly as the probe's success path
does, and a null session (or one without a user) clears them and resets the
refresh stamp to 0. -/
def applyAuthChange (now : Nat) (nowIso : String) (s : ProviderState)
    (session : Option Session) : ProviderState :=
  let s0 := { s with authError := none }
  match session with
  | some sess =>
    match sess.user with
    | some su =>
      { s0 with currentUser := some (mkUser su nowIso)
                authToken := some sess.access_token
                lastTokenRefresh := now }
    | none =>
      { s0 with currentUser := none, authToken := none, lastTokenRefresh := 0 }
  | none =>
    { s0 with currentUser := none, authToken := none, lastTokenRefresh := 0 }

/-!
## Concrete data used to exercise the definitions
-/

/-- A concrete authenticated user. -/
def demoUser : User :=
  { id := "u1"
    username := "a@b.com"
    password := ""
    isAdmin := false
    createdAt := "2024-01-01" }

/-- A provider state holding a logged-in user and token. -/
def loggedInState : ProviderState :=
  { currentUser := some demoUser
    authToken := some "tok-1"
    isLoading := false
    authError := none
    lastTokenRefresh := 5 }

/-- A concrete backend session-user payload. -/
def demoSessionUser : SessionUser :=
  { id := "u1", email := some "a@b.com", created_at := some "2024-01-01" }

/-- A concrete backend session wrapping `demoSessionUser`. -/
def demoSession : Session :=
  { user := some demoSessionUser, access_token := "tok-1" }

/-- Two providers mount; caller 0 has entered and its probe fetch is still
outstanding, caller 1 has not entered yet. -/
def midFlight : SysState := execRun 2 [Cmd.enter 0]

/-- Two providers mount; caller 0 ran the whole probe to completion
(no session, no error) before caller 1 enters. -/
def lateMountSys : SysState :=
  execRun 2 [Cmd.enter 0, Cmd.resolve (FetchOutcome.ok none none) 3 "2024-01-02"]

/-- A full two-caller interleaving: both enter while fresh, then the single
outstanding fetch resolves. -/
def demoFullRun : List Cmd :=
  [Cmd.enter 0, Cmd.enter 1, Cmd.resolve (FetchOutcome.ok none none) 3 "2024-01-02"]

/-- The session carried by the last event of the demo burst. -/
def demoBurstSession : Session :=
  { user := some { id := "u5", email := some "e5@x.com", created_at := some "2024-01-05" }
    access_token := "tok-5" }

/-- Five change events inside one 500ms span; only the fifth's payload
should survive the debounce. -/
def demoBurst : List (Nat × Option Session) :=
  [(0, none), (100, some demoSession), (200, none), (300, some demoSession),
   (450, some demoBurstSession)]

/-!
## Invariant of the interleaving model
-/

/-- Relations the scheduler maintains between the guard flags, the fetch
ownership and the number of backend calls: the promise is pending exactly
while `isCheckingSession` holds, a fetch is outstanding exactly then too,
the backend has been called once iff a probe started (in flight or
completed) and not at all otherwise, and any caller past `ready` means a
probe started. -/
def GuardCallsInv (s : SysState) : Prop :=
  s.guard.sessionCheckPromisePending = s.guard.isCheckingSession ∧
  s.fetchOwner.isSome = s.guard.isCheckingSession ∧
  s.backendCalls =
    (if s.guard.isCheckingSession || s.guard.hasInitialSessionChecked then 1 else 0) ∧
  ((∃ c ∈ s.callers, c.phase ≠ Phase.ready) →
    (s.guard.isCheckingSession || s.guard.hasInitialSessionChecked) = true)

/-!
## Theorems
-/

/-- C1, counterexample: when the retried `signOut` call throws, `logout()`
does not clear the local state — `currentUser` stays present, `authToken`
stays present, `lastTokenRefresh` stays 5 — refuting the claim that every
outcome of the backend sign-out call leaves the local state cleared. -/
theorem logout_thrown_keeps_state :
    logoutExec loggedInState (SignOutOutcome.thrown "network down") = loggedInState ∧
    (logoutExec loggedInState (SignOutOutcome.thrown "network down")).currentUser ≠ none ∧
    (logoutExec loggedInState (SignOutOutcome.thrown "network down")).authToken ≠ none ∧
    (logoutExec loggedInState (SignOutOutcome.thrown "network down")).lastTokenRefresh ≠ 0 := by
  refine ⟨rfl, ?_, ?_, ?_⟩ <;> decide

/-- C1, amended: when the retried `signOut` call resolves — whether or not
its payload carries a backend error — `logout()` clears the local state
(`currentUser` and `authToken` absent, `lastTokenRefresh` zero, `authError`
cleared); when the call throws, the state is left entirely unchanged and the
error is only logged. -/
theorem logout_clears_state_iff_resolves (s : ProviderState) (err : Option String)
    (msg : String) :
    (logoutExec s (SignOutOutcome.resolved err)).currentUser = none ∧
    (logoutExec s (SignOutOutcome.resolved err)).authToken = none ∧
    (logoutExec s (SignOutOutcome.resolved err)).lastTokenRefresh = 0 ∧
    (logoutExec s (SignOutOutcome.resolved err)).authError = none ∧
    logoutExec s (SignOutOutcome.thrown msg) = s :=
  ⟨rfl, rfl, rfl, rfl, rfl⟩

/-- C3, counterexample: when the backend returns a valid session together
with a non-null error, the initial probe does not use the session — starting
from the fresh provider state, `currentUser` and `authToken` stay absent and
the error is recorded — refuting the claim that the probe populates them
from the session payload in this case. -/
theorem probe_session_with_error_not_used :
    (runInitialProbe initialProviderState
      (FetchOutcome.ok (some demoSession) (some "boom")) 42 "2024-01-02").currentUser
        = none ∧
    (runInitialProbe initialProviderState
      (FetchOutcome.ok (some demoSession) (some "boom")) 42 "2024-01-02").authToken
        = none ∧
    (runInitialProbe initialProviderState
      (FetchOutcome.ok (some demoSession) (some "boom")) 42 "2024-01-02").authError
        = some "Erro de sessão: boom" :=
  ⟨rfl, rfl, rfl⟩

/-- C3, amended: when the backend returns a valid session together with a
non-null error, the initial probe treats the error as fatal: it leaves
`currentUser`, `authToken` and `lastTokenRefresh` unchanged and sets
`authError` to the formatted session-error message instead of using the
session. -/
theorem probe_session_with_error_is_fatal (s : ProviderState) (su : SessionUser)
    (tok : String) (e : String) (now : Nat) (nowIso : String) :
    (runInitialProbe s
      (FetchOutcome.ok (some { user := some su, access_token := tok }) (some e))
      now nowIso).currentUser = s.currentUser ∧
    (runInitialProbe s
      (FetchOutcome.ok (some { user := some su, access_token := tok }) (some e))
      now nowIso).authToken = s.authToken ∧
    (runInitialProbe s
      (FetchOutcome.ok (some { user := some su, access_token := tok }) (some e))
      now nowIso).lastTokenRefresh = s.lastTokenRefresh ∧
    (runInitialProbe s
      (FetchOutcome.ok (some { user := some su, access_token := tok }) (some e))
      now nowIso).authError = some ("Erro de sessão: " ++ e) :=
  ⟨rfl, rfl, rfl, rfl⟩

/-- C6: the user record built on every success path is privileged exactly
when the account identifier is "droweder@gmail.com", and the session-fetch
success path, the login success path and a change event carrying a live
session all install exactly that record as `currentUser`. -/
theorem privilege_rule (s : ProviderState) (su : SessionUser) (tok : String)
    (now : Nat) (nowIso : String) :
    ((mkUser su nowIso).isAdmin = true ↔ su.email = some "droweder@gmail.com") ∧
    (checkSessionProcess s
      (FetchOutcome.ok (some { user := some su, access_token := tok }) none)
      now nowIso).currentUser = some (mkUser su nowIso) ∧
    (loginExec s
      (FetchOutcome.ok (some { user := some su, access_token := tok }) none)
      now nowIso).1.currentUser = some (mkUser su nowIso) ∧
    (applyAuthChange now nowIso s
      (some { user := some su, access_token := tok })).currentUser
        = some (mkUser su nowIso) := by
  refine ⟨?_, rfl, rfl, rfl⟩
  simp [mkUser, privilegedEmail]

/-- C7: when the backend sign-in reports an error or throws, `login` returns
false, records a message in `authError`, and leaves every other state field
(`currentUser`, `authToken`, `lastTokenRefresh`, `isLoading`) unchanged. -/
theorem login_failure_state_unchanged (s : ProviderState) (r : FetchOutcome)
    (now : Nat) (nowIso : String) (h : loginFailureOutcome r = true) :
    (loginExec s r now nowIso).2 = false ∧
    (loginExec s r now nowIso).1.currentUser = s.currentUser ∧
    (loginExec s r now nowIso).1.authToken = s.authToken ∧
    (loginExec s r now nowIso).1.lastTokenRefresh = s.lastTokenRefresh ∧
    (loginExec s r now nowIso).1.isLoading = s.isLoading ∧
    (loginExec s r now nowIso).1.authError.isSome = true := by
  match r with
  | .exn msg => exact ⟨rfl, rfl, rfl, rfl, rfl, rfl⟩
  | .ok sess (some e) => exact ⟨rfl, rfl, rfl, rfl, rfl, rfl⟩
  | .ok sess none => simp [loginFailureOutcome] at h

/-- C7, witness: a concrete failed sign-in (backend error "bad credentials")
against the logged-out initial state returns false and leaves `currentUser`
unchanged. -/
theorem login_failure_state_unchanged_witness :
    (loginExec initialProviderState (FetchOutcome.ok none (some "bad credentials"))
      7 "2024-01-02").2 = false ∧
    (loginExec initialProviderState (FetchOutcome.ok none (some "bad credentials"))
      7 "2024-01-02").1.currentUser = initialProviderState.currentUser :=
  ⟨(login_failure_state_unchanged initialProviderState
      (FetchOutcome.ok none (some "bad credentials")) 7 "2024-01-02" (by decide)).1,
   (login_failure_state_unchanged initialProviderState
      (FetchOutcome.ok none (some "bad credentials")) 7 "2024-01-02" (by decide)).2.1⟩

/-- C8: when the backend sign-in returns a session with a user and no error,
`login` returns true, sets `authToken` to the session access token,
installs the user built from the session payload, and stamps the refresh
time. -/
theorem login_success_populates_state (s : ProviderState) (su : SessionUser)
    (tok : String) (now : Nat) (nowIso : String) :
    (loginExec s
      (FetchOutcome.ok (some { user := some su, access_token := tok }) none)
      now nowIso).2 = true ∧
    (loginExec s
      (FetchOutcome.ok (some { user := some su, access_token := tok }) none)
      now nowIso).1.authToken = some tok ∧
    (loginExec s
      (FetchOutcome.ok (some { user := some su, access_token := tok }) none)
      now nowIso).1.currentUser = some (mkUser su nowIso) ∧
    (loginExec s
      (FetchOutcome.ok (some { user := some su, access_token := tok }) none)
      now nowIso).1.lastTokenRefresh = now :=
  ⟨rfl, rfl, rfl, rfl⟩

/-- C10: evaluated outside a provider (context value absent) the hook
throws the fixed error; under a provider it returns the provided context
value. -/
theorem useAuth_requires_provider :
    useAuthHook none = Except.error "useAuth must be used within an AuthProvider" ∧
    ∀ c : AuthSnapshot, useAuthHook (some c) = Except.ok c :=
  ⟨rfl, fun _ => rfl⟩

/-- Every scheduler command preserves the number of mounted callers. -/
theorem callers_length_execCmd (s : SysState) (c : Cmd) :
    (execCmd s c).callers.length = s.callers.length := by
  cases c with
  | enter i =>
    show (enterStep s i).callers.length = s.callers.length
    unfold enterStep
    cases hget : s.callers[i]? with
    | none => rfl
    | some cl =>
      dsimp only
      by_cases hp : cl.phase = Phase.ready
      · rw [if_pos hp]
        split_ifs <;> simp
      · rw [if_neg hp]
  | resolve r now nowIso =>
    show (resolveStep s r now nowIso).callers.length = s.callers.length
    unfold resolveStep
    cases hfo : s.fetchOwner with
    | none => rfl
    | some o =>
      cases hget : s.callers[o]? with
      | none => simp [hget]
      | some cl => simp [hget]

/-- Every scheduler command preserves the guard/calls invariant. -/
theorem guardCallsInv_execCmd (s : SysState) (c : Cmd) (h : GuardCallsInv s) :
    GuardCallsInv (execCmd s c) := by
  obtain ⟨h1, h2, h3, h4⟩ := h
  cases c with
  | enter i =>
    show GuardCallsInv (enterStep s i)
    unfold enterStep
    cases hget : s.callers[i]? with
    | none => exact ⟨h1, h2, h3, h4⟩
    | some cl =>
      dsimp only
      by_cases hp : cl.phase = Phase.ready
      · rw [if_pos hp]
        split_ifs with hchk hflight hpend
        · exact ⟨h1, h2, h3, fun _ => by simp [hchk]⟩
        · exact ⟨h1, h2, h3, fun _ => by simp [hflight]⟩
        · rw [h1] at hpend
          exact absurd hpend hflight
        · have hc : s.guard.isCheckingSession = false := by simpa using hflight
          have hh : s.guard.hasInitialSessionChecked = false := by simpa using hchk
          have hb : s.backendCalls = 0 := by rw [h3, hc, hh]; rfl
          exact ⟨rfl, rfl, by simp [hb], fun _ => rfl⟩
      · rw [if_neg hp]
        exact ⟨h1, h2, h3, h4⟩
  | resolve r now nowIso =>
    show GuardCallsInv (resolveStep s r now nowIso)
    unfold resolveStep
    cases hfo : s.fetchOwner with
    | none => exact ⟨h1, h2, h3, h4⟩
    | some o =>
      have hcs : s.guard.isCheckingSession = true := by rw [← h2, hfo]; rfl
      refine ⟨rfl, rfl, ?_, fun _ => rfl⟩
      simp [h3, hcs]

/-- The fresh state satisfies the guard/calls invariant. -/
theorem guardCallsInv_initSys (n : Nat) : GuardCallsInv (initSys n) := by
  refine ⟨rfl, rfl, rfl, ?_⟩
  rintro ⟨c, hc, hne⟩
  exact absurd (congrArg Caller.phase (List.eq_of_mem_replicate hc)) hne

/-- Every run from the fresh state satisfies the guard/calls invariant. -/
theorem guardCallsInv_execRun (n : Nat) (cs : List Cmd) :
    GuardCallsInv (execRun n cs) := by
  have hgen : ∀ (l : List Cmd) (s : SysState),
      GuardCallsInv s → GuardCallsInv (l.foldl execCmd s) := by
    intro l
    induction l with
    | nil => exact fun s hs => hs
    | cons c cs ih => exact fun s hs => ih _ (guardCallsInv_execCmd s c hs)
  exact hgen cs (initSys n) (guardCallsInv_initSys n)

/-- A run from the fresh `n`-caller state keeps exactly `n` callers. -/
theorem callers_length_execRun (n : Nat) (cs : List Cmd) :
    (execRun n cs).callers.length = n := by
  have hgen : ∀ (l : List Cmd) (s : SysState),
      (l.foldl execCmd s).callers.length = s.callers.length := by
    intro l
    induction l with
    | nil => exact fun _ => rfl
    | cons c cs ih => intro s; rw [List.foldl_cons, ih, callers_length_execCmd]
  rw [execRun, hgen]
  simp [initSys]

/-- C4: for any number `n ≥ 1` of providers mounting concurrently and any
interleaving of their `checkSession` entries with fetch resolution, once
every caller has finished, exactly one backend session-fetch call was
issued over the whole run. -/
theorem concurrent_initialize_single_fetch (n : Nat) (cs : List Cmd) (hn : 1 ≤ n)
    (hall : ∀ c ∈ (execRun n cs).callers, c.phase = Phase.finished) :
    (execRun n cs).backendCalls = 1 := by
  obtain ⟨h1, h2, h3, h4⟩ := guardCallsInv_execRun n cs
  have hne : (execRun n cs).callers ≠ [] := by
    intro h0
    have hlen := callers_length_execRun n cs
    rw [h0] at hlen
    simp at hlen
    omega
  obtain ⟨c0, hc0⟩ := List.exists_mem_of_ne_nil _ hne
  have hstarted := h4 ⟨c0, hc0, by rw [hall c0 hc0]; decide⟩
  rw [h3, hstarted]
  rfl

/-- C4, witness: two providers mount, both enter before the single fetch
resolves, the fetch then resolves; the completed run issued exactly one
backend call. -/
theorem concurrent_initialize_single_fetch_witness :
    (execRun 2 demoFullRun).backendCalls = 1 :=
  concurrent_initialize_single_fetch 2 demoFullRun (by decide) (by decide)

/-- C5: once `hasInitialSessionChecked` is true, a caller entering
`checkSession` changes nothing but its own record: the guard, the backend
call count, the fetch owner and every other caller are untouched, and the
caller finishes immediately with only its loading flag flipped to false. -/
theorem initialize_after_probe_completed (s : SysState) (i : Nat) (c : Caller)
    (hchk : s.guard.hasInitialSessionChecked = true)
    (hget : s.callers[i]? = some c) (hready : c.phase = Phase.ready) :
    enterStep s i =
      { s with callers := s.callers.set i ⟨Phase.finished, { c.pstate with isLoading := false }⟩ } := by
  unfold enterStep
  rw [hget]
  simp [hready, hchk]

/-- C5, witness: after caller 0 completed the probe, late-mounting caller 1
enters and nothing changes except its own record finishing with loading
false. -/
theorem initialize_after_probe_completed_witness :
    enterStep lateMountSys 1 =
      { lateMountSys with callers := lateMountSys.callers.set 1 ⟨Phase.finished, { initialProviderState with isLoading := false }⟩ } :=
  initialize_after_probe_completed lateMountSys 1
    ⟨Phase.ready, initialProviderState⟩ (by decide) (by decide) (by decide)

/-- C2, counterexample: with caller 0's probe fetch still outstanding
(in-flight flag set, fetch owned by caller 0), caller 1 enters and is
already finished while the fetch is still unresolved — it never awaited the
shared handle and resolved before observing the probe's outcome (though it
did issue no new backend call). -/
theorem enter_during_flight_does_not_await :
    midFlight.guard.isCheckingSession = true ∧
    midFlight.fetchOwner = some 0 ∧
    (midFlight.callers[1]?).map Caller.phase = some Phase.ready ∧
    ((enterStep midFlight 1).callers[1]?).map Caller.phase = some Phase.finished ∧
    (enterStep midFlight 1).fetchOwner = some 0 ∧
    (enterStep midFlight 1).backendCalls = midFlight.backendCalls := by
  decide

/-- C2, amended: a caller entering `checkSession` while the in-flight flag
is set (probe not yet completed) issues no new backend call, but instead of
awaiting the shared pending-operation handle it returns immediately,
finishing with only its loading flag flipped; the branch that awaits the
shared handle is unreachable while the flag is set, since the flag check
precedes it. -/
theorem enter_during_flight_returns_immediately (s : SysState) (i : Nat) (c : Caller)
    (hchk : s.guard.hasInitialSessionChecked = false)
    (hflight : s.guard.isCheckingSession = true)
    (hget : s.callers[i]? = some c) (hready : c.phase = Phase.ready) :
    enterStep s i =
      { s with callers := s.callers.set i ⟨Phase.finished, { c.pstate with isLoading := false }⟩ } := by
  unfold enterStep
  rw [hget]
  simp [hready, hchk, hflight]

/-- C2, amended, witness: caller 1 entering while caller 0's fetch is
outstanding returns immediately as finished, leaving everything else
unchanged. -/
theorem enter_during_flight_returns_immediately_witness :
    enterStep midFlight 1 =
      { midFlight with callers := midFlight.callers.set 1 ⟨Phase.finished, { initialProviderState with isLoading := false }⟩ } :=
  enter_during_flight_returns_immediately midFlight 1
    ⟨Phase.ready, initialProviderState⟩ (by decide) (by decide) (by decide) (by decide)

/-- Along a chronologically ordered event list, the first arrival time is
at most the last. -/
theorem head_fst_le_getLast_fst (x : Nat × Option Session)
    (xs : List (Nat × Option Session))
    (hmono : List.Chain' (fun a b : Nat × Option Session => a.1 ≤ b.1) (x :: xs)) :
    x.1 ≤ ((x :: xs).getLast (by simp)).1 := by
  induction xs generalizing x with
  | nil => simp
  | cons y ys ih =>
    obtain ⟨hxy, htl⟩ := List.chain'_cons.mp hmono
    rw [List.getLast_cons (by simp : (y :: ys) ≠ [])]
    exact le_trans hxy (ih y htl)

/-- When a chronologically ordered event list spans less than the debounce
delay, each event arrives strictly before the previous event's timer would
fire. -/
theorem chain_gap_of_span (x : Nat × Option Session)
    (xs : List (Nat × Option Session))
    (hmono : List.Chain' (fun a b : Nat × Option Session => a.1 ≤ b.1) (x :: xs))
    (hspan : ((x :: xs).getLast (by simp)).1 < x.1 + debounceMs) :
    List.Chain' (fun a b : Nat × Option Session => b.1 < a.1 + debounceMs) (x :: xs) := by
  induction xs generalizing x with
  | nil => simp
  | cons y ys ih =>
    obtain ⟨hxy, htl⟩ := List.chain'_cons.mp hmono
    rw [List.getLast_cons (by simp : (y :: ys) ≠ [])] at hspan
    have hyle := head_fst_le_getLast_fst y ys htl
    rw [List.chain'_cons]
    exact ⟨lt_of_le_of_lt hyle hspan,
      ih y htl (lt_of_lt_of_le hspan (Nat.add_le_add_right hxy debounceMs))⟩

/-- When each event arrives strictly before the previous event's timer
fires, only the final event's timer survives: exactly its payload is
applied. -/
theorem appliedEvents_of_gap_chain (x : Nat × Option Session)
    (xs : List (Nat × Option Session))
    (hgap : List.Chain' (fun a b : Nat × Option Session => b.1 < a.1 + debounceMs)
      (x :: xs)) :
    appliedEvents (x :: xs) = [((x :: xs).getLast (by simp)).2] := by
  induction xs generalizing x with
  | nil =>
    obtain ⟨t, p⟩ := x
    simp [appliedEvents]
  | cons y ys ih =>
    obtain ⟨hxy, htl⟩ := List.chain'_cons.mp hgap
    rw [List.getLast_cons (by simp : (y :: ys) ≠ [])]
    have hstep : appliedEvents (x :: y :: ys) = appliedEvents (y :: ys) := by
      obtain ⟨t, p⟩ := x
      obtain ⟨t2, q⟩ := y
      have hnot : ¬ (t + debounceMs ≤ t2) := by
        simp only [] at hxy
        omega
      simp [appliedEvents, hnot]
    rw [hstep]
    exact ih y htl

/-- C9: for any nonempty burst of change events in chronological order
whose whole span is shorter than the 500ms debounce window, exactly one
state update is applied, and it carries only the final event's session
payload: the applied-update list is the singleton of the last payload, and
folding the applied updates over any provider state equals applying the
last payload once. -/
theorem debounced_burst_applies_last (es : List (Nat × Option Session))
    (hne : es ≠ [])
    (hmono : List.Chain' (fun a b : Nat × Option Session => a.1 ≤ b.1) es)
    (hspan : (es.getLast hne).1 < (es.head hne).1 + debounceMs) :
    appliedEvents es = [(es.getLast hne).2] ∧
    ∀ (s : ProviderState) (now : Nat) (nowIso : String),
      (appliedEvents es).foldl (applyAuthChange now nowIso) s =
        applyAuthChange now nowIso s (es.getLast hne).2 := by
  cases es with
  | nil => exact absurd rfl hne
  | cons x xs =>
    rw [List.head_cons] at hspan
    have h := appliedEvents_of_gap_chain x xs (chain_gap_of_span x xs hmono hspan)
    refine ⟨h, fun s now nowIso => ?_⟩
    rw [h]
    rfl

/-- C9, witness: the concrete 5-event burst spanning 450ms yields exactly
one applied update carrying the 5th event's session. -/
theorem debounced_burst_applies_last_witness :
    appliedEvents demoBurst = [some demoBurstSession] := by
  have h := (debounced_burst_applies_last demoBurst (by decide)
    (by norm_num [demoBurst, List.chain'_cons]) (by decide)).1
  rw [h]
  decide

end AuthContext
